import Mathlib

/-!
Verification development for the RegistryCacheConfig admission validator of
kyma-project/registry-cache (package `internal/webhook/validations`, final
iteration).  The validator's own code is embedded faithfully; the external
collaborators it calls (the gardener registry-cache domain-rule library and
the Go `net/url` parser) are not part of the repository and are passed in as
parameters, with spec-modelled instances where a claim needs their concrete
behaviour.
-/

namespace RegistryCacheValidation

/-- `metav1.Duration` values, modelled as integer nanoseconds. -/
abbrev Duration := Int

/-- `registrycache.Volume`: `Size *resource.Quantity` is modelled by the
quantity's canonical string form, `StorageClassName *string` by an optional
string. -/
structure Volume where
  size : Option String
  storageClassName : Option String
  deriving DecidableEq, Repr

/-- `registrycache.GarbageCollection`: `TTL metav1.Duration`. -/
structure GarbageCollection where
  ttl : Duration
  deriving DecidableEq, Repr

/-- `registrycache.Proxy`. -/
structure Proxy where
  httpProxy : Option String
  httpsProxy : Option String
  deriving DecidableEq, Repr

/-- `registrycache.HTTP`. -/
structure HTTP where
  tls : Bool
  deriving DecidableEq, Repr

/-- `registrycache.RegistryCacheConfigSpec` (api/v1beta1). -/
structure RegistryCacheConfigSpec where
  upstream : String
  remoteURL : Option String
  volume : Option Volume
  garbageCollection : Option GarbageCollection
  secretReferenceName : Option String
  proxy : Option Proxy
  http : Option HTTP
  deriving DecidableEq, Repr

/-- `registrycache.RegistryCacheConfig`: object identity (metadata name and
namespace) plus the spec. -/
structure RegistryCacheConfig where
  name : String
  namespaceName : String
  spec : RegistryCacheConfigSpec
  deriving DecidableEq, Repr

/-- `v1.Secret`, restricted to the parts the validator inspects: metadata
name and namespace, the data entries (keys and values as strings), and the
`Immutable *bool` flag. -/
structure Secret where
  name : String
  namespaceName : String
  data : List (String × String)
  immutable : Option Bool
  deriving DecidableEq, Repr

/-- `field.ErrorType` of k8s.io/apimachinery, restricted to the variants the
system can produce or the spec names. -/
inductive ErrorType where
  | required
  | invalid
  | duplicate
  | notFound
  | internalError
  deriving DecidableEq, Repr

/-- The `BadValue interface\x7b\x7d` slot of a `field.Error`.  The validator
stores plain strings, string pointers (`*string`), and in one case a pointer
to the extension `GarbageCollection` struct. -/
inductive BadValue where
  | str (s : String)
  | ptrStr (s : Option String)
  | gcStruct (ttl : Duration)
  deriving DecidableEq, Repr

/-- `field.Error`: error type, rendered dot-separated field path, offending
value, and detail message. -/
structure FieldError where
  type : ErrorType
  field : String
  badValue : BadValue
  detail : String
  deriving DecidableEq, Repr

/-- `field.Required(path, detail)`: BadValue is the empty string. -/
def fieldRequired (path : String) (detail : String) : FieldError :=
  ⟨ErrorType.required, path, BadValue.str "", detail⟩

/-- `field.Invalid(path, value, detail)`. -/
def fieldInvalid (path : String) (value : BadValue) (detail : String) : FieldError :=
  ⟨ErrorType.invalid, path, value, detail⟩

/-- `field.Duplicate(path, value)`: the detail message is empty. -/
def fieldDuplicate (path : String) (value : BadValue) : FieldError :=
  ⟨ErrorType.duplicate, path, value, ""⟩

/-- Go `strings.Split(s, ".")`. -/
def splitDot (s : String) : List String :=
  (s.toList.splitOn '.').map List.asString

/-- Go `strings.Join(parts, ".")`. -/
def joinDot (parts : List String) : String :=
  (List.intercalate ['.'] (parts.map String.toList)).asString

/-- `adjustPath` (validations.go): drop the second dot-separated segment of a
delegate error path (always the injected `caches[0]` list-index marker);
paths with fewer than two segments are returned unchanged. -/
def adjustPath (extensionPath : String) : String :=
  let parts := splitDot extensionPath
  if parts.length < 2 then extensionPath
  else joinDot (parts.take 1 ++ parts.drop 2)

/-- `transformFieldErrors` (validations.go): rewrite each delegate error's
field path through `adjustPath`. -/
def transformFieldErrors (errs : List FieldError) : List FieldError :=
  errs.map (fun e => { e with field := adjustPath e.field })

/-- `isEmptySpec` (validations.go). -/
def isEmptySpec (s : RegistryCacheConfigSpec) : Bool :=
  s.upstream == "" &&
  s.remoteURL.isNone &&
  s.volume.isNone &&
  s.garbageCollection.isNone &&
  s.proxy.isNone &&
  s.secretReferenceName.isNone &&
  s.http.isNone

/-- Extension (gardener) `registry.Volume`, target of `toExtensionCache`. -/
structure ExtVolume where
  size : Option String
  storageClassName : Option String
  deriving DecidableEq, Repr

/-- Extension `registry.GarbageCollection`. -/
structure ExtGarbageCollection where
  ttl : Duration
  deriving DecidableEq, Repr

/-- Extension `registry.Proxy`. -/
structure ExtProxy where
  httpProxy : Option String
  httpsProxy : Option String
  deriving DecidableEq, Repr

/-- Extension `registry.HTTP`. -/
structure ExtHTTP where
  tls : Bool
  deriving DecidableEq, Repr

/-- Extension `registry.RegistryCache`, the per-cache entry of the delegate's
input wrapper. -/
structure ExtRegistryCache where
  upstream : String
  remoteURL : Option String
  secretReferenceName : Option String
  volume : Option ExtVolume
  garbageCollection : Option ExtGarbageCollection
  proxy : Option ExtProxy
  http : Option ExtHTTP
  deriving DecidableEq, Repr

/-- Extension `registry.RegistryConfig`: the list-of-caches wrapper handed to
the external domain-rule delegate. -/
structure ExtRegistryConfig where
  caches : List ExtRegistryCache
  deriving DecidableEq, Repr

/-- `toExtensionCache` (validations.go): field-for-field copy of the spec
into the extension cache entry. -/
def toExtensionCache (c : RegistryCacheConfigSpec) : ExtRegistryCache :=
  { upstream := c.upstream
    remoteURL := c.remoteURL
    secretReferenceName := c.secretReferenceName
    volume :=
      match c.volume with
      | none => none
      | some v => some { size := v.size, storageClassName := v.storageClassName }
    garbageCollection :=
      match c.garbageCollection with
      | none => none
      | some g => some { ttl := g.ttl }
    proxy :=
      match c.proxy with
      | none => none
      | some p => some { httpProxy := p.httpProxy, httpsProxy := p.httpsProxy }
    http :=
      match c.http with
      | none => none
      | some h => some { tls := h.tls } }

/-- `toExtensionConfig` (validations.go): wrap the candidate spec into a
singleton-cache extension config. -/
def toExtensionConfig (rc : RegistryCacheConfig) : ExtRegistryConfig :=
  { caches := [toExtensionCache rc.spec] }

/-- The external collaborators called by the validator, passed as explicit
capabilities: the `net/url` hostname extraction (`none` models a parse
error, `some h` a successful parse with `Hostname() = h`) and the three
gardener library entry points. -/
structure Externals where
  urlHostname : String → Option String
  validateRegistryConfig : ExtRegistryConfig → List FieldError
  validateRegistryConfigUpdate : ExtRegistryConfig → ExtRegistryConfig → List FieldError
  validateUpstreamRegistrySecret : Secret → String → List FieldError

/-- `Validator` (validations.go): pre-fetched secrets, pre-fetched existing
configurations, and the injected DNS capability (`none` models a nil
`DNSValidator`). -/
structure Validator where
  secrets : List Secret
  existingConfigs : List RegistryCacheConfig
  dns : Option (String → Bool)

/-- `NewValidator` (validations.go). -/
def NewValidator (secrets : List Secret) (existing : List RegistryCacheConfig)
    (dnsValidator : Option (String → Bool)) : Validator :=
  { secrets := secrets, existingConfigs := existing, dns := dnsValidator }

/-- `validateUpstreamUniqueness` (validations.go): skip existing entries with
the candidate's own name and namespace; on the first remaining entry whose
upstream equals the candidate's, emit one Duplicate error and stop. -/
def validateUpstreamUniqueness (newConfig : RegistryCacheConfig) :
    List RegistryCacheConfig → List FieldError
  | [] => []
  | existingConfig :: rest =>
    if existingConfig.name == newConfig.name &&
        existingConfig.namespaceName == newConfig.namespaceName then
      validateUpstreamUniqueness newConfig rest
    else if existingConfig.spec.upstream == newConfig.spec.upstream then
      [fieldDuplicate "spec.upstream" (BadValue.str newConfig.spec.upstream)]
    else
      validateUpstreamUniqueness newConfig rest

/-- `validateUpstreamResolvability` (validations.go): if the upstream is
non-empty and the DNS capability is present and answers false for the
upstream string, emit one Invalid error. -/
def validateUpstreamResolvability (newConfig : RegistryCacheConfig)
    (dns : Option (String → Bool)) : List FieldError :=
  let u := newConfig.spec.upstream
  if u != "" then
    match dns with
    | some r =>
      if !(r u) then
        [fieldInvalid "spec.upstream" (BadValue.str u) "upstream is not DNS resolvable"]
      else []
    | none => []
  else []

/-- `validateRemoteURLResolvability` (validations.go): when `remoteURL` is
set, parse it; on parse success with a non-empty hostname and a present DNS
capability answering false, emit one Invalid error.  A parse error emits
nothing. -/
def validateRemoteURLResolvability (urlHostname : String → Option String)
    (newConfig : RegistryCacheConfig) (dns : Option (String → Bool)) : List FieldError :=
  match newConfig.spec.remoteURL with
  | some s =>
    match urlHostname s with
    | some host =>
      match dns with
      | some r =>
        if host != "" && !(r host) then
          [fieldInvalid "spec.remoteURL" (BadValue.ptrStr (some s))
            "remoteURL is not DNS resolvable"]
        else []
      | none => []
    | none => []
  | none => []

/-- `validateSecretReferenceName` (validations.go): look up the referenced
secret by name in the candidate's namespace among the pre-fetched secrets;
if absent emit one Invalid error, otherwise delegate to the external secret
structure checker. -/
def validateSecretReferenceName (secretChecker : Secret → String → List FieldError)
    (newConfig : RegistryCacheConfig) (secrets : List Secret) : List FieldError :=
  match newConfig.spec.secretReferenceName with
  | some refName =>
    match secrets.find? (fun s =>
        s.name == refName && s.namespaceName == newConfig.namespaceName) with
    | none =>
      [fieldInvalid "spec.secretReferenceName" (BadValue.str refName) "secret does not exist"]
    | some secret => secretChecker secret refName
  | none => []

/-- `Validator.validateCommon` (validations.go): concatenation of the four
common checks, in source order. -/
def Validator.validateCommon (E : Externals) (v : Validator)
    (newConfig : RegistryCacheConfig) : List FieldError :=
  validateUpstreamUniqueness newConfig v.existingConfigs
    ++ validateUpstreamResolvability newConfig v.dns
    ++ validateRemoteURLResolvability E.urlHostname newConfig v.dns
    ++ validateSecretReferenceName E.validateUpstreamRegistrySecret newConfig v.secrets

/-- `Validator.Do` (validations.go), the ValidateCreate entry point. -/
def Validator.Do (E : Externals) (v : Validator)
    (newConfig : RegistryCacheConfig) : List FieldError :=
  if isEmptySpec newConfig.spec then
    [fieldRequired "spec" "spec must not be empty"]
  else
    v.validateCommon E newConfig
      ++ transformFieldErrors (E.validateRegistryConfig (toExtensionConfig newConfig))

/-- `Validator.DoOnUpdate` (validations.go), the ValidateUpdate entry point. -/
def Validator.DoOnUpdate (E : Externals) (v : Validator)
    (newConfig oldConfig : RegistryCacheConfig) : List FieldError :=
  if isEmptySpec newConfig.spec then
    [fieldRequired "spec" "spec must not be empty"]
  else
    v.validateCommon E newConfig
      ++ transformFieldErrors
          (E.validateRegistryConfigUpdate (toExtensionConfig oldConfig)
            (toExtensionConfig newConfig))

/-- Conditional singleton error list, used to assemble the spec-modelled
delegate outputs. -/
def errIf (b : Bool) (e : FieldError) : List FieldError :=
  if b then [e] else []

/-- Port suffix of an upstream host string, when one is present (the part
after the last colon). -/
def portOfUpstream (u : String) : Option String :=
  match (u.toList.splitOn ':').reverse with
  | [] => none
  | [_] => none
  | p :: _ => some p.asString

/-- Decimal parsing of a port over its character list: non-empty all-digit
strings parse to their value. -/
def parsePort (cs : List Char) : Option Nat :=
  if cs.isEmpty then none
  else if cs.all Char.isDigit then
    some (cs.foldl (fun n c => 10 * n + (c.toNat - 48)) 0)
  else none

/-- A valid registry port: a decimal number in the range 1 to 65535. -/
def validPort (s : String) : Bool :=
  match parsePort s.toList with
  | some n => 1 ≤ n && n ≤ 65535
  | none => false

/-- Positivity of a quantity string at the granularity the delegate needs:
non-empty, not zero, and without a leading minus sign. -/
def quantityPositive (s : String) : Bool :=
  s != "" && s != "0" && !(s.startsWith "-")

/-- DNS-subdomain shape: non-empty, lower case alphanumeric characters with
dashes and dots. -/
def isSubdomain (s : String) : Bool :=
  s != "" && s.toList.all (fun c => c.isLower || c.isDigit || c == '-' || c == '.')

/-- A URL string carrying an explicit http or https scheme. -/
def hasHTTPScheme (s : String) : Bool :=
  s.startsWith "http://" || s.startsWith "https://"

/-- The string with any http or https scheme removed. -/
def schemeStripped (s : String) : String :=
  if s.startsWith "http://" then s.drop 7
  else if s.startsWith "https://" then s.drop 8
  else s

/-- Host portion of a proxy URL string: the scheme-stripped prefix up to the
first slash or colon. -/
def proxyHost (s : String) : String :=
  ((schemeStripped s).toList.takeWhile (fun c => c != '/' && c != ':')).asString

/-- Modelled from the spec: the per-proxy-field rules of the external
domain-rule delegate (spec section 4.3): the value must start with http:// or
https:// and its host must be subdomain-shaped. -/
def specValidateProxyField (path : String) (value : String) : List FieldError :=
  errIf (!hasHTTPScheme value)
    (fieldInvalid path (BadValue.str value) "url must start with http:// or https://")
    ++ errIf (!isSubdomain (proxyHost value))
      (fieldInvalid path (BadValue.str value)
        "subdomain must consist of lower case alphanumeric characters")

/-- Modelled from the spec: the external domain-rule delegate
`ValidateRegistryConfig` of the gardener registry-cache library (not part of
this repository), applied to one cache entry.  Rule set per spec section
4.3; error paths are rooted at the wrapper's indexed path
`spec.caches[0]` per the same section.  Every rule emits Invalid errors
only. -/
def specValidateRegistryCache (c : ExtRegistryCache) : List FieldError :=
  errIf
    (match portOfUpstream c.upstream with
     | some p => !validPort p
     | none => false)
    (fieldInvalid "spec.caches[0].upstream" (BadValue.str c.upstream)
      "valid port must be in the range [1, 65535]")
  ++ (match c.remoteURL with
      | some r =>
        errIf (!hasHTTPScheme r)
          (fieldInvalid "spec.caches[0].remoteURL" (BadValue.str r)
            "url must start with http:// or https://")
      | none => [])
  ++ (match c.volume with
      | some vol =>
        (match vol.size with
         | some s =>
           errIf (!quantityPositive s)
             (fieldInvalid "spec.caches[0].volume.size" (BadValue.str s)
               "must be greater than 0")
         | none => [])
        ++ (match vol.storageClassName with
            | some n =>
              errIf (!isSubdomain n)
                (fieldInvalid "spec.caches[0].volume.storageClassName"
                  (BadValue.ptrStr (some n))
                  "subdomain must consist of lower case alphanumeric characters")
            | none => [])
      | none => [])
  ++ (match c.garbageCollection with
      | some g =>
        errIf (decide (g.ttl < 0))
          (fieldInvalid "spec.caches[0].garbageCollection.ttl" (BadValue.str "")
            "ttl must be a non-negative duration")
      | none => [])
  ++ (match c.proxy with
      | some p =>
        (match p.httpProxy with
         | some hp => specValidateProxyField "spec.caches[0].proxy.httpProxy" hp
         | none => [])
        ++ (match p.httpsProxy with
            | some hp => specValidateProxyField "spec.caches[0].proxy.httpsProxy" hp
            | none => [])
      | none => [])

/-- Modelled from the spec: `ValidateRegistryConfig` on the singleton-cache
wrapper the validator always builds. -/
def specValidateRegistryConfig (cfg : ExtRegistryConfig) : List FieldError :=
  match cfg.caches with
  | c :: _ => specValidateRegistryCache c
  | [] => []

/-- Size of the volume of a cache entry, when both are present. -/
def extVolumeSize : Option ExtVolume → Option String
  | none => none
  | some vol => vol.size

/-- Storage class name of the volume of a cache entry, when both are
present. -/
def extStorageClassName : Option ExtVolume → Option String
  | none => none
  | some vol => vol.storageClassName

/-- Garbage-collection TTL of a cache entry; an unset struct counts as a
zero (disabled) TTL. -/
def extGCTTL : Option ExtGarbageCollection → Duration
  | none => 0
  | some g => g.ttl

/-- Modelled from the spec: the update-specific checks of the external
delegate `ValidateRegistryConfigUpdate` (gardener registry-cache library,
not part of this repository), per spec section 4.2: `volume.size` and
`volume.storageClassName` are immutable when set on both sides, and the
garbage-collection TTL cannot move from zero-or-unset to non-zero; the TTL
error carries the candidate's garbage-collection struct as value.  Error
paths are rooted at `spec.caches[0]` per section 4.3. -/
def specValidateRegistryCacheUpdate (oldCache newCache : ExtRegistryCache) :
    List FieldError :=
  (match extVolumeSize oldCache.volume, extVolumeSize newCache.volume with
   | some a, some b =>
     errIf (a != b)
       (fieldInvalid "spec.caches[0].volume.size" (BadValue.str b) "field is immutable")
   | _, _ => [])
  ++ (match extStorageClassName oldCache.volume, extStorageClassName newCache.volume with
      | some a, some b =>
        errIf (a != b)
          (fieldInvalid "spec.caches[0].volume.storageClassName"
            (BadValue.ptrStr (some b)) "field is immutable")
      | _, _ => [])
  ++ errIf
      (extGCTTL oldCache.garbageCollection == 0 &&
        extGCTTL newCache.garbageCollection != 0)
      (fieldInvalid "spec.caches[0].garbageCollection.ttl"
        (BadValue.gcStruct (extGCTTL newCache.garbageCollection))
        "garbage collection cannot be enabled")

/-- Modelled from the spec: `ValidateRegistryConfigUpdate` on the
singleton-cache wrappers the validator always builds. -/
def specValidateRegistryConfigUpdate (oldCfg newCfg : ExtRegistryConfig) :
    List FieldError :=
  match oldCfg.caches, newCfg.caches with
  | oldCache :: _, newCache :: _ => specValidateRegistryCacheUpdate oldCache newCache
  | _, _ => []

/-- Modelled from the spec: the external secret-structure checker
`ValidateUpstreamRegistrySecret` (gardener registry-cache library, not part
of this repository), per spec section 4.1 step 6: exactly two data entries,
a username entry, a password entry, and the immutability flag set; all
applicable sub-errors are returned together, all of type Invalid on the
given path with the reference name as value. -/
def specValidateUpstreamRegistrySecret (secret : Secret) (refName : String) :
    List FieldError :=
  errIf (secret.data.length != 2)
    (fieldInvalid "spec.secretReferenceName" (BadValue.str refName)
      "referenced secret must only have two data entries")
  ++ errIf (!(secret.data.any (fun kv => kv.fst == "username")))
    (fieldInvalid "spec.secretReferenceName" (BadValue.str refName)
      "missing \"username\" data entry in referenced secret")
  ++ errIf (!(secret.data.any (fun kv => kv.fst == "password")))
    (fieldInvalid "spec.secretReferenceName" (BadValue.str refName)
      "missing \"password\" data entry in referenced secret")
  ++ errIf (secret.immutable != some true)
    (fieldInvalid "spec.secretReferenceName" (BadValue.str refName)
      "referenced secret should be immutable")

/-- The external-collaborator pack with the three gardener entry points
instantiated by their spec-modelled definitions, parameterised by the
`net/url` hostname oracle. -/
def specExternals (urlHost : String → Option String) : Externals :=
  { urlHostname := urlHost
    validateRegistryConfig := specValidateRegistryConfig
    validateRegistryConfigUpdate := specValidateRegistryConfigUpdate
    validateUpstreamRegistrySecret := specValidateUpstreamRegistrySecret }

/-- The all-unset spec (every optional field nil, upstream empty). -/
def emptySpec : RegistryCacheConfigSpec :=
  { upstream := "", remoteURL := none, volume := none, garbageCollection := none,
    secretReferenceName := none, proxy := none, http := none }

/-- DNS capability that resolves every host (mirrors the test fixture
`dnsResolverAlwaysTrue`). -/
def dnsAlwaysTrue : String → Bool := fun _ => true

/-- DNS capability that resolves exactly the bare host `docker.io` (mirrors
the test fixture `dnsResolver`). -/
def dnsDockerOnly : String → Bool := fun h => h == "docker.io"

/-- Hostname oracle standing for `net/url` on inputs where parsing fails;
Go `url.Parse ":"` fails with a missing-protocol-scheme error, so the
oracle answers `none` there (and on every other input used with it). -/
def urlParseAlwaysFails : String → Option String := fun _ => none

/-- Garbage-collection TTL of a candidate configuration; an unset struct
counts as zero (disabled), mirroring the delegate's reading. -/
def configGCTTL (c : RegistryCacheConfig) : Duration :=
  match c.spec.garbageCollection with
  | none => 0
  | some g => g.ttl

/-- Volume size of a candidate configuration, when volume and size are both
set. -/
def configVolumeSize (c : RegistryCacheConfig) : Option String :=
  match c.spec.volume with
  | none => none
  | some v => v.size

/-- Volume storage class name of a candidate configuration, when volume and
storage class name are both set. -/
def configStorageClassName (c : RegistryCacheConfig) : Option String :=
  match c.spec.volume with
  | none => none
  | some v => v.storageClassName

/-- Previous configuration of the 10Gi-to-20Gi update scenario. -/
def cfgVol10 : RegistryCacheConfig :=
  { name := "config1", namespaceName := "default",
    spec := { emptySpec with
              upstream := "docker.io",
              volume := some ({ size := some "10Gi", storageClassName := none } : Volume) } }

/-- Candidate configuration of the 10Gi-to-20Gi update scenario: identical
to `cfgVol10` except for the volume size. -/
def cfgVol20 : RegistryCacheConfig :=
  { name := "config1", namespaceName := "default",
    spec := { emptySpec with
              upstream := "docker.io",
              volume := some ({ size := some "20Gi", storageClassName := none } : Volume) } }

end RegistryCacheValidation

namespace RegistryCacheValidation

/-! ## Helper lemmas -/

theorem mem_errIf {b : Bool} {x e : FieldError} : e ∈ errIf b x ↔ b = true ∧ e = x := by
  cases b <;> simp [errIf]

theorem configVolumeSize_toExtensionCache (c : RegistryCacheConfig) :
    extVolumeSize (toExtensionCache c.spec).volume = configVolumeSize c := by
  cases h : c.spec.volume <;>
    simp [extVolumeSize, toExtensionCache, configVolumeSize, h]

theorem configStorageClassName_toExtensionCache (c : RegistryCacheConfig) :
    extStorageClassName (toExtensionCache c.spec).volume = configStorageClassName c := by
  cases h : c.spec.volume <;>
    simp [extStorageClassName, toExtensionCache, configStorageClassName, h]

theorem configGCTTL_toExtensionCache (c : RegistryCacheConfig) :
    extGCTTL (toExtensionCache c.spec).garbageCollection = configGCTTL c := by
  cases h : c.spec.garbageCollection <;>
    simp [extGCTTL, toExtensionCache, configGCTTL, h]

theorem Do_emptySpec (E : Externals) (v : Validator) (c : RegistryCacheConfig)
    (h : isEmptySpec c.spec = true) :
    Validator.Do E v c = [fieldRequired "spec" "spec must not be empty"] := by
  simp [Validator.Do, h]

theorem DoOnUpdate_emptySpec (E : Externals) (v : Validator)
    (newC oldC : RegistryCacheConfig) (h : isEmptySpec newC.spec = true) :
    Validator.DoOnUpdate E v newC oldC
      = [fieldRequired "spec" "spec must not be empty"] := by
  simp [Validator.DoOnUpdate, h]

/-! ## C1: empty spec short-circuits to one Required error -/

/-- C1: for every candidate whose spec is empty (upstream empty, all other
fields unset), both `Do` (ValidateCreate) and `DoOnUpdate` (ValidateUpdate)
return exactly one Required error on the top-level `spec` path, for every
external-collaborator pack, secrets list, existing-configurations list, DNS
capability and previous configuration — no other check runs. -/
theorem emptySpec_single_required_error (E : Externals) (v : Validator)
    (newConfig oldConfig : RegistryCacheConfig)
    (h : isEmptySpec newConfig.spec = true) :
    Validator.Do E v newConfig = [fieldRequired "spec" "spec must not be empty"] ∧
    Validator.DoOnUpdate E v newConfig oldConfig
      = [fieldRequired "spec" "spec must not be empty"] :=
  ⟨Do_emptySpec E v newConfig h, DoOnUpdate_emptySpec E v newConfig oldConfig h⟩

/-- C1 witness at a concrete empty-spec configuration. -/
theorem emptySpec_single_required_error_witness :
    isEmptySpec emptySpec = true ∧
    Validator.Do (specExternals urlParseAlwaysFails)
        (NewValidator [] [] (some dnsAlwaysTrue))
        { name := "c", namespaceName := "default", spec := emptySpec }
      = [fieldRequired "spec" "spec must not be empty"] :=
  ⟨by decide,
    (emptySpec_single_required_error (specExternals urlParseAlwaysFails)
      (NewValidator [] [] (some dnsAlwaysTrue))
      { name := "c", namespaceName := "default", spec := emptySpec }
      { name := "c", namespaceName := "default", spec := emptySpec }
      (by decide)).1⟩


/-! ## C4: a remoteURL parse failure emits nothing -/

/-- C4 (amended): when `remoteURL` is set, a URL parse failure makes the
check emit nothing at all (the code has no "failed to parse remoteURL"
branch); on parse success the Invalid resolvability error is emitted
exactly when the parsed hostname is non-empty and the present resolver
answers false for it; in every other case the check emits nothing. -/
theorem remoteURL_parse_failure_emits_nothing :
    (∀ (uh : String → Option String) (cfg : RegistryCacheConfig)
        (dns : Option (String → Bool)) (s : String),
      cfg.spec.remoteURL = some s → uh s = none →
      validateRemoteURLResolvability uh cfg dns = []) ∧
    (∀ (uh : String → Option String) (cfg : RegistryCacheConfig)
        (r : String → Bool) (s host : String),
      cfg.spec.remoteURL = some s → uh s = some host → host ≠ "" → r host = false →
      validateRemoteURLResolvability uh cfg (some r)
        = [fieldInvalid "spec.remoteURL" (BadValue.ptrStr (some s))
            "remoteURL is not DNS resolvable"]) ∧
    (∀ (uh : String → Option String) (cfg : RegistryCacheConfig)
        (r : String → Bool) (s host : String),
      cfg.spec.remoteURL = some s → uh s = some host → (host = "" ∨ r host = true) →
      validateRemoteURLResolvability uh cfg (some r) = []) ∧
    (∀ (uh : String → Option String) (cfg : RegistryCacheConfig),
      validateRemoteURLResolvability uh cfg none = []) ∧
    (∀ (uh : String → Option String) (cfg : RegistryCacheConfig)
        (dns : Option (String → Bool)),
      cfg.spec.remoteURL = none → validateRemoteURLResolvability uh cfg dns = []) := by
  refine ⟨fun uh cfg dns s h1 h2 => ?_, fun uh cfg r s host h1 h2 h3 h4 => ?_,
    fun uh cfg r s host h1 h2 h3 => ?_, fun uh cfg => ?_, fun uh cfg dns h1 => ?_⟩
  · cases dns <;> simp_all [validateRemoteURLResolvability]
  · simp_all [validateRemoteURLResolvability]
  · rcases h3 with h3 | h3 <;> simp_all [validateRemoteURLResolvability]
  · cases h : cfg.spec.remoteURL with
    | none => simp_all [validateRemoteURLResolvability]
    | some s =>
      simp_all only [validateRemoteURLResolvability]
      cases uh s <;> simp_all
  · simp_all [validateRemoteURLResolvability]

/-- C4 counterexample: remoteURL `":"` fails Go URL parsing (missing
protocol scheme, modelled by the failing hostname oracle), yet the full
create-validation result contains no error whose detail is "failed to
parse remoteURL" — the code has no such branch. -/
theorem remoteURL_parse_failure_counterexample :
    urlParseAlwaysFails ":" = none ∧
    (Validator.Do (specExternals urlParseAlwaysFails)
        (NewValidator [] [] (some dnsAlwaysTrue))
        { name := "config1", namespaceName := "default",
          spec := { emptySpec with upstream := "docker.io", remoteURL := some ":" } }).all
      (fun e => e.detail != "failed to parse remoteURL") = true := by
  constructor <;> decide

/-- C4 witness: the amended parse-failure case at a concrete input. -/
theorem remoteURL_parse_failure_witness :
    validateRemoteURLResolvability urlParseAlwaysFails
        { name := "config1", namespaceName := "default",
          spec := { emptySpec with upstream := "docker.io", remoteURL := some ":" } }
        (some dnsAlwaysTrue) = [] :=
  remoteURL_parse_failure_emits_nothing.1 urlParseAlwaysFails
    { name := "config1", namespaceName := "default",
      spec := { emptySpec with upstream := "docker.io", remoteURL := some ":" } }
    (some dnsAlwaysTrue) ":" rfl rfl

/-! ## Shape lemmas for the individual checks -/

theorem validateUpstreamUniqueness_nil_or_singleton (cand : RegistryCacheConfig)
    (l : List RegistryCacheConfig) :
    validateUpstreamUniqueness cand l = [] ∨
    validateUpstreamUniqueness cand l
      = [fieldDuplicate "spec.upstream" (BadValue.str cand.spec.upstream)] := by
  induction l with
  | nil => left; rfl
  | cons ec rest ih =>
    rw [validateUpstreamUniqueness]
    split
    · exact ih
    · split
      · right; rfl
      · exact ih

theorem mem_validateUpstreamUniqueness {cand : RegistryCacheConfig}
    {l : List RegistryCacheConfig} {e : FieldError}
    (h : e ∈ validateUpstreamUniqueness cand l) :
    e = fieldDuplicate "spec.upstream" (BadValue.str cand.spec.upstream) := by
  rcases validateUpstreamUniqueness_nil_or_singleton cand l with hh | hh <;>
    rw [hh] at h <;> simp_all

theorem mem_validateUpstreamUniqueness_iff (cand : RegistryCacheConfig)
    (l : List RegistryCacheConfig) :
    fieldDuplicate "spec.upstream" (BadValue.str cand.spec.upstream)
        ∈ validateUpstreamUniqueness cand l ↔
      ∃ ec ∈ l, ¬(ec.name = cand.name ∧ ec.namespaceName = cand.namespaceName) ∧
        ec.spec.upstream = cand.spec.upstream := by
  induction l with
  | nil => simp [validateUpstreamUniqueness]
  | cons ec rest ih =>
    rw [validateUpstreamUniqueness]
    by_cases h1 : (ec.name == cand.name && ec.namespaceName == cand.namespaceName) = true
    · rw [if_pos h1]
      simp only [Bool.and_eq_true, beq_iff_eq] at h1
      simp [ih, h1]
    · rw [if_neg h1]
      simp only [Bool.and_eq_true, beq_iff_eq, not_and_or] at h1
      by_cases h2 : (ec.spec.upstream == cand.spec.upstream) = true
      · rw [if_pos h2]
        simp only [beq_iff_eq] at h2
        constructor
        · intro _
          exact ⟨ec, List.mem_cons_self _ _, by tauto, h2⟩
        · intro _
          exact List.mem_singleton.mpr rfl
      · rw [if_neg h2]
        simp only [beq_iff_eq] at h2
        rw [ih]
        constructor
        · rintro ⟨x, hx, hrest⟩
          exact ⟨x, List.mem_cons_of_mem _ hx, hrest⟩
        · rintro ⟨x, hx, hid, hup⟩
          rcases List.mem_cons.mp hx with rfl | hx
          · exact absurd hup h2
          · exact ⟨x, hx, hid, hup⟩

theorem mem_validateUpstreamResolvability {cfg : RegistryCacheConfig}
    {dns : Option (String → Bool)} {e : FieldError}
    (h : e ∈ validateUpstreamResolvability cfg dns) :
    e = fieldInvalid "spec.upstream" (BadValue.str cfg.spec.upstream)
        "upstream is not DNS resolvable" := by
  simp only [validateUpstreamResolvability] at h
  split at h
  · cases dns with
    | none => simp at h
    | some r =>
      simp only at h
      split at h <;> simp_all
  · simp at h

theorem mem_validateRemoteURLResolvability {uh : String → Option String}
    {cfg : RegistryCacheConfig} {dns : Option (String → Bool)} {e : FieldError}
    (h : e ∈ validateRemoteURLResolvability uh cfg dns) :
    e.type = ErrorType.invalid ∧ e.field = "spec.remoteURL" ∧
      e.detail = "remoteURL is not DNS resolvable" := by
  simp only [validateRemoteURLResolvability] at h
  repeat' split at h
  all_goals simp_all [fieldInvalid]

theorem mem_specValidateUpstreamRegistrySecret {s : Secret} {refName : String}
    {e : FieldError} (h : e ∈ specValidateUpstreamRegistrySecret s refName) :
    e.type = ErrorType.invalid ∧ e.field = "spec.secretReferenceName" ∧
      (e.detail = "referenced secret must only have two data entries" ∨
       e.detail = "missing \"username\" data entry in referenced secret" ∨
       e.detail = "missing \"password\" data entry in referenced secret" ∨
       e.detail = "referenced secret should be immutable") := by
  simp only [specValidateUpstreamRegistrySecret, List.mem_append, mem_errIf] at h
  rcases h with ((⟨_, rfl⟩ | ⟨_, rfl⟩) | ⟨_, rfl⟩) | ⟨_, rfl⟩ <;> simp [fieldInvalid]

theorem mem_validateSecretReferenceName {checker : Secret → String → List FieldError}
    {cfg : RegistryCacheConfig} {secrets : List Secret} {e : FieldError}
    (h : e ∈ validateSecretReferenceName checker cfg secrets) :
    (∃ refName, cfg.spec.secretReferenceName = some refName ∧
      e = fieldInvalid "spec.secretReferenceName" (BadValue.str refName)
          "secret does not exist") ∨
    (∃ s refName, e ∈ checker s refName) := by
  cases href : cfg.spec.secretReferenceName with
  | none => simp [validateSecretReferenceName, href] at h
  | some refName =>
    simp only [validateSecretReferenceName, href] at h
    cases hfind : secrets.find? (fun s =>
        s.name == refName && s.namespaceName == cfg.namespaceName) with
    | none =>
      simp only [hfind] at h
      left
      exact ⟨refName, rfl, by simpa using h⟩
    | some secret =>
      simp only [hfind] at h
      right
      exact ⟨secret, refName, h⟩

theorem mem_specValidateProxyField {path value : String} {e : FieldError}
    (h : e ∈ specValidateProxyField path value) :
    e.type = ErrorType.invalid ∧ e.field = path ∧
      (e.detail = "url must start with http:// or https://" ∨
       e.detail = "subdomain must consist of lower case alphanumeric characters") := by
  simp only [specValidateProxyField, List.mem_append, mem_errIf] at h
  rcases h with ⟨_, rfl⟩ | ⟨_, rfl⟩ <;> simp [fieldInvalid]

theorem mem_specValidateRegistryCache {c : ExtRegistryCache} {e : FieldError}
    (h : e ∈ specValidateRegistryCache c) :
    e.type = ErrorType.invalid ∧
      (e.detail = "valid port must be in the range [1, 65535]" ∨
       e.detail = "url must start with http:// or https://" ∨
       e.detail = "must be greater than 0" ∨
       e.detail = "subdomain must consist of lower case alphanumeric characters" ∨
       e.detail = "ttl must be a non-negative duration") := by
  simp only [specValidateRegistryCache, List.mem_append] at h
  rcases h with ((((h | h) | h) | h) | h)
  · rcases mem_errIf.mp h with ⟨_, rfl⟩; simp [fieldInvalid]
  · split at h
    · rcases mem_errIf.mp h with ⟨_, rfl⟩; simp [fieldInvalid]
    · simp at h
  · split at h
    · rcases List.mem_append.mp h with h | h
      · split at h
        · rcases mem_errIf.mp h with ⟨_, rfl⟩; simp [fieldInvalid]
        · simp at h
      · split at h
        · rcases mem_errIf.mp h with ⟨_, rfl⟩; simp [fieldInvalid]
        · simp at h
    · simp at h
  · split at h
    · rcases mem_errIf.mp h with ⟨_, rfl⟩; simp [fieldInvalid]
    · simp at h
  · split at h
    · rcases List.mem_append.mp h with h | h
      · split at h
        · rcases mem_specValidateProxyField h with ⟨h1, _, h3⟩
          exact ⟨h1, by rcases h3 with hd | hd <;> simp [hd]⟩
        · simp at h
      · split at h
        · rcases mem_specValidateProxyField h with ⟨h1, _, h3⟩
          exact ⟨h1, by rcases h3 with hd | hd <;> simp [hd]⟩
        · simp at h
    · simp at h

theorem mem_specValidateRegistryConfig {cfg : ExtRegistryConfig} {e : FieldError}
    (h : e ∈ specValidateRegistryConfig cfg) :
    e.type = ErrorType.invalid ∧
      (e.detail = "valid port must be in the range [1, 65535]" ∨
       e.detail = "url must start with http:// or https://" ∨
       e.detail = "must be greater than 0" ∨
       e.detail = "subdomain must consist of lower case alphanumeric characters" ∨
       e.detail = "ttl must be a non-negative duration") := by
  simp only [specValidateRegistryConfig] at h
  split at h
  · exact mem_specValidateRegistryCache h
  · simp at h

theorem mem_transformFieldErrors {l : List FieldError} {e : FieldError}
    (h : e ∈ transformFieldErrors l) :
    ∃ e0 ∈ l, e = { e0 with field := adjustPath e0.field } := by
  simp only [transformFieldErrors, List.mem_map] at h
  rcases h with ⟨e0, h0, rfl⟩
  exact ⟨e0, h0, rfl⟩

theorem mem_specValidateRegistryCacheUpdate_iff {o n : ExtRegistryCache} {e : FieldError} :
    e ∈ specValidateRegistryCacheUpdate o n ↔
      ((∃ a b, extVolumeSize o.volume = some a ∧ extVolumeSize n.volume = some b ∧
          a ≠ b ∧ e = fieldInvalid "spec.caches[0].volume.size" (BadValue.str b)
            "field is immutable") ∨
       (∃ a b, extStorageClassName o.volume = some a ∧
          extStorageClassName n.volume = some b ∧
          a ≠ b ∧ e = fieldInvalid "spec.caches[0].volume.storageClassName"
            (BadValue.ptrStr (some b)) "field is immutable") ∨
       (extGCTTL o.garbageCollection = 0 ∧ extGCTTL n.garbageCollection ≠ 0 ∧
          e = fieldInvalid "spec.caches[0].garbageCollection.ttl"
            (BadValue.gcStruct (extGCTTL n.garbageCollection))
            "garbage collection cannot be enabled")) := by
  cases h1 : extVolumeSize o.volume <;> cases h2 : extVolumeSize n.volume <;>
    cases h3 : extStorageClassName o.volume <;> cases h4 : extStorageClassName n.volume <;>
      simp [specValidateRegistryCacheUpdate, h1, h2, h3, h4, mem_errIf,
        Bool.and_eq_true, beq_iff_eq, bne_iff_ne, and_assoc]

theorem mem_specValidateRegistryCacheUpdate {o n : ExtRegistryCache} {e : FieldError}
    (h : e ∈ specValidateRegistryCacheUpdate o n) : e.type = ErrorType.invalid := by
  rcases mem_specValidateRegistryCacheUpdate_iff.mp h with
    ⟨_, _, _, _, _, rfl⟩ | ⟨_, _, _, _, _, rfl⟩ | ⟨_, _, rfl⟩ <;> rfl

theorem mem_specValidateRegistryConfigUpdate {o n : ExtRegistryConfig} {e : FieldError}
    (h : e ∈ specValidateRegistryConfigUpdate o n) : e.type = ErrorType.invalid := by
  simp only [specValidateRegistryConfigUpdate] at h
  split at h
  · exact mem_specValidateRegistryCacheUpdate h
  · simp at h

theorem specValidateRegistryCacheUpdate_self (c : ExtRegistryCache) :
    specValidateRegistryCacheUpdate c c = [] := by
  cases h1 : extVolumeSize c.volume <;> cases h2 : extStorageClassName c.volume <;>
    rcases eq_or_ne (extGCTTL c.garbageCollection) 0 with h3 | h3 <;>
      simp [specValidateRegistryCacheUpdate, h1, h2, h3, errIf, bne_self_eq_false]

/-- `Do` with the empty-spec guard discharged, written as the flat
concatenation of its five parts. -/
theorem Do_eq_parts (urlHost : String → Option String) (v : Validator)
    (cand : RegistryCacheConfig) (h : isEmptySpec cand.spec = false) :
    Validator.Do (specExternals urlHost) v cand
      = validateUpstreamUniqueness cand v.existingConfigs
        ++ (validateUpstreamResolvability cand v.dns
        ++ (validateRemoteURLResolvability urlHost cand v.dns
        ++ (validateSecretReferenceName specValidateUpstreamRegistrySecret cand v.secrets
        ++ transformFieldErrors (specValidateRegistryConfig (toExtensionConfig cand))))) := by
  simp [Validator.Do, h, Validator.validateCommon, specExternals, List.append_assoc]

/-- `DoOnUpdate` with the empty-spec guard discharged, written as the flat
concatenation of its five parts. -/
theorem DoOnUpdate_eq_parts (urlHost : String → Option String) (v : Validator)
    (newC oldC : RegistryCacheConfig) (h : isEmptySpec newC.spec = false) :
    Validator.DoOnUpdate (specExternals urlHost) v newC oldC
      = validateUpstreamUniqueness newC v.existingConfigs
        ++ (validateUpstreamResolvability newC v.dns
        ++ (validateRemoteURLResolvability urlHost newC v.dns
        ++ (validateSecretReferenceName specValidateUpstreamRegistrySecret newC v.secrets
        ++ transformFieldErrors
            (specValidateRegistryCacheUpdate (toExtensionCache oldC.spec)
              (toExtensionCache newC.spec))))) := by
  simp [Validator.DoOnUpdate, h, Validator.validateCommon, specExternals,
    specValidateRegistryConfigUpdate, toExtensionConfig, List.append_assoc]

/-! ## C3: the upstream DNS check does not strip a port suffix -/

/-- C3 (amended): the upstream DNS check hands the resolver the full
upstream string, without stripping any port suffix: with a present resolver
the Invalid error is emitted exactly when the resolver answers false for
the whole upstream string, with a nil DNS capability the check emits
nothing, and accordingly the error appears in the results of `Do` and
`DoOnUpdate` exactly under those conditions. -/
theorem upstreamResolvability_queries_full_upstream :
    (∀ (cfg : RegistryCacheConfig) (r : String → Bool),
      cfg.spec.upstream ≠ "" → r cfg.spec.upstream = false →
      validateUpstreamResolvability cfg (some r)
        = [fieldInvalid "spec.upstream" (BadValue.str cfg.spec.upstream)
            "upstream is not DNS resolvable"]) ∧
    (∀ (cfg : RegistryCacheConfig) (r : String → Bool),
      r cfg.spec.upstream = true → validateUpstreamResolvability cfg (some r) = []) ∧
    (∀ cfg : RegistryCacheConfig, validateUpstreamResolvability cfg none = []) ∧
    (∀ (urlHost : String → Option String) (v : Validator)
        (cfg oldC : RegistryCacheConfig) (r : String → Bool),
      v.dns = some r → isEmptySpec cfg.spec = false →
      cfg.spec.upstream ≠ "" → r cfg.spec.upstream = false →
      fieldInvalid "spec.upstream" (BadValue.str cfg.spec.upstream)
          "upstream is not DNS resolvable"
        ∈ Validator.Do (specExternals urlHost) v cfg ∧
      fieldInvalid "spec.upstream" (BadValue.str cfg.spec.upstream)
          "upstream is not DNS resolvable"
        ∈ Validator.DoOnUpdate (specExternals urlHost) v cfg oldC) ∧
    (∀ (urlHost : String → Option String) (v : Validator)
        (cfg oldC : RegistryCacheConfig),
      (v.dns = none ∨ ∃ r, v.dns = some r ∧ r cfg.spec.upstream = true) →
      (∀ e ∈ Validator.Do (specExternals urlHost) v cfg,
        e.detail ≠ "upstream is not DNS resolvable") ∧
      (∀ e ∈ Validator.DoOnUpdate (specExternals urlHost) v cfg oldC,
        e.detail ≠ "upstream is not DNS resolvable")) := by
  have hbase : ∀ (cfg : RegistryCacheConfig) (r : String → Bool),
      cfg.spec.upstream ≠ "" → r cfg.spec.upstream = false →
      validateUpstreamResolvability cfg (some r)
        = [fieldInvalid "spec.upstream" (BadValue.str cfg.spec.upstream)
            "upstream is not DNS resolvable"] := by
    intro cfg r hu hr
    simp_all [validateUpstreamResolvability]
  have hskip : ∀ (cfg : RegistryCacheConfig) (r : String → Bool),
      r cfg.spec.upstream = true → validateUpstreamResolvability cfg (some r) = [] := by
    intro cfg r hr
    simp_all [validateUpstreamResolvability]
  have hnil : ∀ cfg : RegistryCacheConfig,
      validateUpstreamResolvability cfg none = [] := by
    intro cfg
    simp [validateUpstreamResolvability]
  refine ⟨hbase, hskip, hnil, ?_, ?_⟩
  · intro urlHost v cfg oldC r hdns hne hu hr
    have hmem : fieldInvalid "spec.upstream" (BadValue.str cfg.spec.upstream)
        "upstream is not DNS resolvable" ∈ validateUpstreamResolvability cfg v.dns := by
      rw [hdns, hbase cfg r hu hr]
      exact List.mem_singleton.mpr rfl
    constructor
    · rw [Do_eq_parts urlHost v cfg hne]
      exact List.mem_append_right _ (List.mem_append_left _ hmem)
    · rw [DoOnUpdate_eq_parts urlHost v cfg oldC hne]
      exact List.mem_append_right _ (List.mem_append_left _ hmem)
  · intro urlHost v cfg oldC hcond
    have hupnil : validateUpstreamResolvability cfg v.dns = [] := by
      rcases hcond with hdns | ⟨r, hdns, hr⟩
      · rw [hdns]; exact hnil cfg
      · rw [hdns]; exact hskip cfg r hr
    constructor
    · intro e he
      by_cases hne : isEmptySpec cfg.spec = true
      · rw [Do_emptySpec (specExternals urlHost) v cfg hne] at he
        simp only [List.mem_singleton] at he
        simp [he, fieldRequired]
      · rw [Bool.not_eq_true] at hne
        rw [Do_eq_parts urlHost v cfg hne] at he
        simp only [List.mem_append] at he
        rcases he with he | he | he | he | he
        · rw [mem_validateUpstreamUniqueness he]; simp [fieldDuplicate]
        · rw [hupnil] at he; simp at he
        · rw [(mem_validateRemoteURLResolvability he).2.2]; decide
        · rcases mem_validateSecretReferenceName he with ⟨refName, _, rfl⟩ | ⟨s, refName, hin⟩
          · simp [fieldInvalid]
          · rcases (mem_specValidateUpstreamRegistrySecret hin).2.2 with hd | hd | hd | hd <;>
              rw [hd] <;> decide
        · rcases mem_transformFieldErrors he with ⟨e0, h0, rfl⟩
          have hde : FieldError.detail { e0 with field := adjustPath e0.field }
              = e0.detail := rfl
          rw [hde]
          rcases (mem_specValidateRegistryConfig h0).2 with hd | hd | hd | hd | hd <;>
            rw [hd] <;> decide
    · intro e he
      by_cases hne : isEmptySpec cfg.spec = true
      · rw [DoOnUpdate_emptySpec (specExternals urlHost) v cfg oldC hne] at he
        simp only [List.mem_singleton] at he
        simp [he, fieldRequired]
      · rw [Bool.not_eq_true] at hne
        rw [DoOnUpdate_eq_parts urlHost v cfg oldC hne] at he
        simp only [List.mem_append] at he
        rcases he with he | he | he | he | he
        · rw [mem_validateUpstreamUniqueness he]; simp [fieldDuplicate]
        · rw [hupnil] at he; simp at he
        · rw [(mem_validateRemoteURLResolvability he).2.2]; decide
        · rcases mem_validateSecretReferenceName he with ⟨refName, _, rfl⟩ | ⟨s, refName, hin⟩
          · simp [fieldInvalid]
          · rcases (mem_specValidateUpstreamRegistrySecret hin).2.2 with hd | hd | hd | hd <;>
              rw [hd] <;> decide
        · rcases mem_transformFieldErrors he with ⟨e0, h0, rfl⟩
          have hde : FieldError.detail { e0 with field := adjustPath e0.field }
              = e0.detail := rfl
          rw [hde]
          rcases mem_specValidateRegistryCacheUpdate_iff.mp h0 with
            ⟨a, b, _, _, _, rfl⟩ | ⟨a, b, _, _, _, rfl⟩ | ⟨_, _, rfl⟩ <;> simp [fieldInvalid]

/-- C3 counterexample: upstream `docker.io:5000` with a resolver answering
true for the bare host `docker.io` (and false for everything else): the
claim predicts no error because the bare host resolves, yet the full
create-validation result contains the Invalid error, because the code
queries the resolver with the full, unstripped string. -/
theorem upstream_port_not_stripped_counterexample :
    dnsDockerOnly "docker.io" = true ∧
    Validator.Do (specExternals urlParseAlwaysFails)
        (NewValidator [] [] (some dnsDockerOnly))
        { name := "config1", namespaceName := "default",
          spec := { emptySpec with upstream := "docker.io:5000" } }
      = [fieldInvalid "spec.upstream" (BadValue.str "docker.io:5000")
          "upstream is not DNS resolvable"] := by
  constructor <;> decide

/-- C3 witness at a concrete non-resolvable upstream. -/
theorem upstreamResolvability_full_upstream_witness :
    validateUpstreamResolvability
        { name := "config1", namespaceName := "default",
          spec := { emptySpec with upstream := "some.incorrect.repo.io" } }
        (some dnsDockerOnly)
      = [fieldInvalid "spec.upstream" (BadValue.str "some.incorrect.repo.io")
          "upstream is not DNS resolvable"] :=
  upstreamResolvability_queries_full_upstream.1
    { name := "config1", namespaceName := "default",
      spec := { emptySpec with upstream := "some.incorrect.repo.io" } }
    dnsDockerOnly (by decide) (by decide)

/-! ## C2: upstream uniqueness -/

/-- C2 (amended to candidates whose spec is non-empty — with an empty spec
the guard short-circuits and no uniqueness check runs): the result of `Do`
contains a Duplicate error on `spec.upstream` carrying the candidate's
upstream exactly when some existing configuration with a different
name-plus-namespace identity has a case-sensitively equal upstream; at most
one Duplicate error is emitted even when several existing configurations
collide, and an entry with the candidate's own identity is never
compared. -/
theorem duplicate_iff_of_parts (urlHost : String → Option String) (v : Validator)
    (cand : RegistryCacheConfig) (rest : List FieldError)
    (hrest : ∀ e ∈ rest, e.type = ErrorType.invalid) :
    ((∃ e ∈ validateUpstreamUniqueness cand v.existingConfigs
        ++ (validateUpstreamResolvability cand v.dns
        ++ (validateRemoteURLResolvability urlHost cand v.dns
        ++ (validateSecretReferenceName specValidateUpstreamRegistrySecret cand v.secrets
        ++ rest))),
        e.type = ErrorType.duplicate ∧ e.field = "spec.upstream" ∧
          e.badValue = BadValue.str cand.spec.upstream) ↔
      ∃ ec ∈ v.existingConfigs,
        ¬(ec.name = cand.name ∧ ec.namespaceName = cand.namespaceName) ∧
          ec.spec.upstream = cand.spec.upstream) ∧
    (validateUpstreamUniqueness cand v.existingConfigs
        ++ (validateUpstreamResolvability cand v.dns
        ++ (validateRemoteURLResolvability urlHost cand v.dns
        ++ (validateSecretReferenceName specValidateUpstreamRegistrySecret cand v.secrets
        ++ rest)))).countP (fun e => e.type == ErrorType.duplicate) ≤ 1 := by
  constructor
  · constructor
    · rintro ⟨e, he, htype, hfield, hval⟩
      simp only [List.mem_append] at he
      rcases he with he | he | he | he | he
      · have heq := mem_validateUpstreamUniqueness he
        exact (mem_validateUpstreamUniqueness_iff cand v.existingConfigs).mp (heq ▸ he)
      · rw [mem_validateUpstreamResolvability he] at htype
        simp [fieldInvalid] at htype
      · have ht := (mem_validateRemoteURLResolvability he).1
        rw [ht] at htype
        exact absurd htype (by decide)
      · rcases mem_validateSecretReferenceName he with ⟨refName, _, rfl⟩ | ⟨s, refName, hin⟩
        · simp [fieldInvalid] at htype
        · have ht := (mem_specValidateUpstreamRegistrySecret hin).1
          rw [ht] at htype
          exact absurd htype (by decide)
      · rw [hrest e he] at htype
        exact absurd htype (by decide)
    · rintro ⟨ec, hec, hid, hup⟩
      refine ⟨fieldDuplicate "spec.upstream" (BadValue.str cand.spec.upstream),
        ?_, rfl, rfl, rfl⟩
      simp only [List.mem_append]
      exact Or.inl ((mem_validateUpstreamUniqueness_iff cand v.existingConfigs).mpr
        ⟨ec, hec, hid, hup⟩)
  · simp only [List.countP_append]
    have hu : (validateUpstreamUniqueness cand v.existingConfigs).countP
        (fun e => e.type == ErrorType.duplicate) ≤ 1 := by
      rcases validateUpstreamUniqueness_nil_or_singleton cand v.existingConfigs with hh | hh <;>
          rw [hh] <;> simp [List.countP_cons, List.countP_nil]
      split <;> simp
    have c1 : (validateUpstreamResolvability cand v.dns).countP
        (fun e => e.type == ErrorType.duplicate) = 0 := by
      rw [List.countP_eq_zero]
      intro e he
      rw [mem_validateUpstreamResolvability he]
      simp [fieldInvalid]
    have c2 : (validateRemoteURLResolvability urlHost cand v.dns).countP
        (fun e => e.type == ErrorType.duplicate) = 0 := by
      rw [List.countP_eq_zero]
      intro e he
      have ht := (mem_validateRemoteURLResolvability he).1
      simp [ht]
    have c3 : (validateSecretReferenceName specValidateUpstreamRegistrySecret
        cand v.secrets).countP (fun e => e.type == ErrorType.duplicate) = 0 := by
      rw [List.countP_eq_zero]
      intro e he
      rcases mem_validateSecretReferenceName he with ⟨refName, _, rfl⟩ | ⟨s, refName, hin⟩
      · simp [fieldInvalid]
      · have ht := (mem_specValidateUpstreamRegistrySecret hin).1
        simp [ht]
    have c4 : rest.countP (fun e => e.type == ErrorType.duplicate) = 0 := by
      rw [List.countP_eq_zero]
      intro e he
      simp [hrest e he]
    rw [c1, c2, c3, c4]
    omega

/-- C2 (amended to candidates whose spec is non-empty — with an empty spec
the guard short-circuits and no uniqueness check runs): both for `Do` and
for `DoOnUpdate` (against any previous configuration), the result contains
a Duplicate error on `spec.upstream` carrying the candidate's upstream
exactly when some existing configuration with a different
name-plus-namespace identity has a case-sensitively equal upstream; at most
one Duplicate error is emitted even when several existing configurations
collide, and an entry with the candidate's own identity is never
compared. -/
theorem upstream_uniqueness_duplicate_iff (urlHost : String → Option String)
    (v : Validator) (cand oldC : RegistryCacheConfig)
    (h : isEmptySpec cand.spec = false) :
    ((∃ e ∈ Validator.Do (specExternals urlHost) v cand,
        e.type = ErrorType.duplicate ∧ e.field = "spec.upstream" ∧
          e.badValue = BadValue.str cand.spec.upstream) ↔
      ∃ ec ∈ v.existingConfigs,
        ¬(ec.name = cand.name ∧ ec.namespaceName = cand.namespaceName) ∧
          ec.spec.upstream = cand.spec.upstream) ∧
    (Validator.Do (specExternals urlHost) v cand).countP
        (fun e => e.type == ErrorType.duplicate) ≤ 1 ∧
    ((∃ e ∈ Validator.DoOnUpdate (specExternals urlHost) v cand oldC,
        e.type = ErrorType.duplicate ∧ e.field = "spec.upstream" ∧
          e.badValue = BadValue.str cand.spec.upstream) ↔
      ∃ ec ∈ v.existingConfigs,
        ¬(ec.name = cand.name ∧ ec.namespaceName = cand.namespaceName) ∧
          ec.spec.upstream = cand.spec.upstream) ∧
    (Validator.DoOnUpdate (specExternals urlHost) v cand oldC).countP
        (fun e => e.type == ErrorType.duplicate) ≤ 1 := by
  have hDo := duplicate_iff_of_parts urlHost v cand
    (transformFieldErrors (specValidateRegistryConfig (toExtensionConfig cand)))
    (by intro e he
        rcases mem_transformFieldErrors he with ⟨e0, h0, rfl⟩
        exact (mem_specValidateRegistryConfig h0).1)
  have hUp := duplicate_iff_of_parts urlHost v cand
    (transformFieldErrors (specValidateRegistryCacheUpdate (toExtensionCache oldC.spec)
      (toExtensionCache cand.spec)))
    (by intro e he
        rcases mem_transformFieldErrors he with ⟨e0, h0, rfl⟩
        have ht : FieldError.type { e0 with field := adjustPath e0.field } = e0.type := rfl
        rw [ht]
        exact mem_specValidateRegistryCacheUpdate h0)
  rw [Do_eq_parts urlHost v cand h, DoOnUpdate_eq_parts urlHost v cand oldC h]
  exact ⟨hDo.1, hDo.2, hUp.1, hUp.2⟩

/-- C2 counterexample to the unrestricted claim: an empty-spec candidate
short-circuits to the single Required error, so no Duplicate error is
returned even though an existing configuration with a different name has an
equal (empty) upstream — the stated equivalence fails there. -/
theorem upstream_uniqueness_emptySpec_counterexample :
    (([{ name := "b", namespaceName := "default", spec := emptySpec }] :
        List RegistryCacheConfig).any (fun ec =>
          !(ec.name == "a" && ec.namespaceName == "default") &&
            ec.spec.upstream == "") = true) ∧
    (Validator.Do (specExternals urlParseAlwaysFails)
        (NewValidator [] [{ name := "b", namespaceName := "default", spec := emptySpec }]
          (some dnsAlwaysTrue))
        { name := "a", namespaceName := "default", spec := emptySpec }).all
      (fun e => e.type != ErrorType.duplicate) = true := by
  constructor <;> decide

/-- C2 witness: the amended theorem applied at a concrete duplicated
upstream. -/
theorem upstream_uniqueness_duplicate_iff_witness :
    (Validator.Do (specExternals urlParseAlwaysFails)
        (NewValidator []
          [{ name := "config1", namespaceName := "default",
             spec := { emptySpec with upstream := "docker.io" } }]
          (some dnsAlwaysTrue))
        { name := "config2", namespaceName := "default",
          spec := { emptySpec with upstream := "docker.io" } }).countP
      (fun e => e.type == ErrorType.duplicate) ≤ 1 :=
  (upstream_uniqueness_duplicate_iff urlParseAlwaysFails
    (NewValidator []
      [{ name := "config1", namespaceName := "default",
         spec := { emptySpec with upstream := "docker.io" } }]
      (some dnsAlwaysTrue))
    { name := "config2", namespaceName := "default",
      spec := { emptySpec with upstream := "docker.io" } }
    { name := "config2", namespaceName := "default",
      spec := { emptySpec with upstream := "docker.io" } } (by decide)).2.1

/-! ## C10: no InternalError is ever produced -/

/-- C10: with the spec-modelled external delegates (which emit only Invalid
errors), every error returned by `Do` and `DoOnUpdate` has a type other
than InternalError, for every validator state and every pair of
configurations — the validator reads only pre-fetched slices, so no
lookup-failure branch exists. -/
theorem no_internal_errors (urlHost : String → Option String) (v : Validator)
    (newConfig oldConfig : RegistryCacheConfig) :
    (Validator.Do (specExternals urlHost) v newConfig).all
        (fun e => e.type != ErrorType.internalError) = true ∧
    (Validator.DoOnUpdate (specExternals urlHost) v newConfig oldConfig).all
        (fun e => e.type != ErrorType.internalError) = true := by
  by_cases h : isEmptySpec newConfig.spec = true
  · rw [Do_emptySpec (specExternals urlHost) v newConfig h,
      DoOnUpdate_emptySpec (specExternals urlHost) v newConfig oldConfig h]
    decide
  · rw [Bool.not_eq_true] at h
    constructor
    · rw [Do_eq_parts urlHost v newConfig h]
      simp only [List.all_eq_true, List.mem_append]
      rintro e (he | he | he | he | he)
      · rw [mem_validateUpstreamUniqueness he]; simp [fieldDuplicate]
      · rw [mem_validateUpstreamResolvability he]; simp [fieldInvalid]
      · have ht := (mem_validateRemoteURLResolvability he).1
        simp [ht]
      · rcases mem_validateSecretReferenceName he with ⟨refName, _, rfl⟩ | ⟨s, refName, hin⟩
        · simp [fieldInvalid]
        · have ht := (mem_specValidateUpstreamRegistrySecret hin).1
          simp [ht]
      · rcases mem_transformFieldErrors he with ⟨e0, h0, rfl⟩
        have ht : FieldError.type { e0 with field := adjustPath e0.field } = e0.type := rfl
        simp [ht, (mem_specValidateRegistryConfig h0).1]
    · rw [DoOnUpdate_eq_parts urlHost v newConfig oldConfig h]
      simp only [List.all_eq_true, List.mem_append]
      rintro e (he | he | he | he | he)
      · rw [mem_validateUpstreamUniqueness he]; simp [fieldDuplicate]
      · rw [mem_validateUpstreamResolvability he]; simp [fieldInvalid]
      · have ht := (mem_validateRemoteURLResolvability he).1
        simp [ht]
      · rcases mem_validateSecretReferenceName he with ⟨refName, _, rfl⟩ | ⟨s, refName, hin⟩
        · simp [fieldInvalid]
        · have ht := (mem_specValidateUpstreamRegistrySecret hin).1
          simp [ht]
      · rcases mem_transformFieldErrors he with ⟨e0, h0, rfl⟩
        have ht : FieldError.type { e0 with field := adjustPath e0.field } = e0.type := rfl
        simp [ht, mem_specValidateRegistryCacheUpdate h0]

/-! ## C5: volume immutability on update -/

/-- C5: on update (with the spec-modelled update delegate), a changed
`volume.size` set on both sides yields the Invalid `field is immutable`
error on `spec.volume.size` carrying the candidate's size, likewise for
`volume.storageClassName`; when both fields are unchanged no error with
that detail appears anywhere in the result; and the concrete
10Gi-to-20Gi scenario with no other change returns exactly that one
error. -/
theorem update_volume_immutability :
    (∀ (urlHost : String → Option String) (v : Validator)
        (oldC newC : RegistryCacheConfig) (a b : String),
      isEmptySpec newC.spec = false →
      configVolumeSize oldC = some a → configVolumeSize newC = some b → a ≠ b →
      fieldInvalid "spec.volume.size" (BadValue.str b) "field is immutable"
        ∈ Validator.DoOnUpdate (specExternals urlHost) v newC oldC) ∧
    (∀ (urlHost : String → Option String) (v : Validator)
        (oldC newC : RegistryCacheConfig) (a b : String),
      isEmptySpec newC.spec = false →
      configStorageClassName oldC = some a → configStorageClassName newC = some b →
      a ≠ b →
      fieldInvalid "spec.volume.storageClassName" (BadValue.ptrStr (some b))
          "field is immutable"
        ∈ Validator.DoOnUpdate (specExternals urlHost) v newC oldC) ∧
    (∀ (urlHost : String → Option String) (v : Validator)
        (oldC newC : RegistryCacheConfig),
      configVolumeSize oldC = configVolumeSize newC →
      configStorageClassName oldC = configStorageClassName newC →
      ∀ e ∈ Validator.DoOnUpdate (specExternals urlHost) v newC oldC,
        e.detail ≠ "field is immutable") ∧
    Validator.DoOnUpdate (specExternals urlParseAlwaysFails)
        (NewValidator [] [] (some dnsAlwaysTrue)) cfgVol20 cfgVol10
      = [fieldInvalid "spec.volume.size" (BadValue.str "20Gi") "field is immutable"] := by
  have hpathSize : adjustPath "spec.caches[0].volume.size" = "spec.volume.size" := by
    decide
  have hpathSC : adjustPath "spec.caches[0].volume.storageClassName"
      = "spec.volume.storageClassName" := by decide
  refine ⟨?_, ?_, ?_, ?_⟩
  · intro urlHost v oldC newC a b hne hsa hsb hab
    rw [DoOnUpdate_eq_parts urlHost v newC oldC hne]
    refine List.mem_append_right _ (List.mem_append_right _ (List.mem_append_right _
      (List.mem_append_right _ ?_)))
    simp only [transformFieldErrors]
    refine List.mem_map.mpr ⟨fieldInvalid "spec.caches[0].volume.size" (BadValue.str b)
      "field is immutable", ?_, ?_⟩
    · refine mem_specValidateRegistryCacheUpdate_iff.mpr (Or.inl ⟨a, b, ?_, ?_, hab, rfl⟩)
      · rw [configVolumeSize_toExtensionCache]; exact hsa
      · rw [configVolumeSize_toExtensionCache]; exact hsb
    · simp [fieldInvalid, hpathSize]
  · intro urlHost v oldC newC a b hne hsa hsb hab
    rw [DoOnUpdate_eq_parts urlHost v newC oldC hne]
    refine List.mem_append_right _ (List.mem_append_right _ (List.mem_append_right _
      (List.mem_append_right _ ?_)))
    simp only [transformFieldErrors]
    refine List.mem_map.mpr ⟨fieldInvalid "spec.caches[0].volume.storageClassName"
      (BadValue.ptrStr (some b)) "field is immutable", ?_, ?_⟩
    · refine mem_specValidateRegistryCacheUpdate_iff.mpr
        (Or.inr (Or.inl ⟨a, b, ?_, ?_, hab, rfl⟩))
      · rw [configStorageClassName_toExtensionCache]; exact hsa
      · rw [configStorageClassName_toExtensionCache]; exact hsb
    · simp [fieldInvalid, hpathSC]
  · intro urlHost v oldC newC hsize hsc e he
    by_cases hne : isEmptySpec newC.spec = true
    · rw [DoOnUpdate_emptySpec (specExternals urlHost) v newC oldC hne] at he
      simp only [List.mem_singleton] at he
      simp [he, fieldRequired]
    · rw [Bool.not_eq_true] at hne
      rw [DoOnUpdate_eq_parts urlHost v newC oldC hne] at he
      simp only [List.mem_append] at he
      rcases he with he | he | he | he | he
      · rw [mem_validateUpstreamUniqueness he]; simp [fieldDuplicate]
      · rw [mem_validateUpstreamResolvability he]; simp [fieldInvalid]
      · rw [(mem_validateRemoteURLResolvability he).2.2]; decide
      · rcases mem_validateSecretReferenceName he with ⟨refName, _, rfl⟩ | ⟨s, refName, hin⟩
        · simp [fieldInvalid]
        · rcases (mem_specValidateUpstreamRegistrySecret hin).2.2 with hd | hd | hd | hd <;>
            rw [hd] <;> decide
      · rcases mem_transformFieldErrors he with ⟨e0, h0, rfl⟩
        have hde : FieldError.detail { e0 with field := adjustPath e0.field }
            = e0.detail := rfl
        rw [hde]
        rcases mem_specValidateRegistryCacheUpdate_iff.mp h0 with
          ⟨a, b, ha, hb, hab, rfl⟩ | ⟨a, b, ha, hb, hab, rfl⟩ | ⟨_, _, rfl⟩
        · rw [configVolumeSize_toExtensionCache, hsize] at ha
          rw [configVolumeSize_toExtensionCache] at hb
          rw [ha] at hb
          exact absurd (Option.some_injective _ hb) hab
        · rw [configStorageClassName_toExtensionCache, hsc] at ha
          rw [configStorageClassName_toExtensionCache] at hb
          rw [ha] at hb
          exact absurd (Option.some_injective _ hb) hab
        · simp [fieldInvalid]
  · decide

/-- C5 witness: the size-immutability branch applied at the 10Gi-to-20Gi
update. -/
theorem update_volume_immutability_witness :
    fieldInvalid "spec.volume.size" (BadValue.str "20Gi") "field is immutable"
      ∈ Validator.DoOnUpdate (specExternals urlParseAlwaysFails)
          (NewValidator [] [] (some dnsAlwaysTrue)) cfgVol20 cfgVol10 :=
  update_volume_immutability.1 urlParseAlwaysFails
    (NewValidator [] [] (some dnsAlwaysTrue)) cfgVol10 cfgVol20 "10Gi" "20Gi"
    (by decide) (by decide) (by decide) (by decide)

/-! ## C6: garbage-collection transition on update -/

/-- C6: on update (with the spec-modelled update delegate), a TTL moving
from zero-or-unset to non-zero yields the Invalid error on
`spec.garbageCollection.ttl` with detail `garbage collection cannot be
enabled`, carrying the candidate's garbage-collection struct (its TTL, not
just a duration) as value; no error with that detail appears when the TTL
was already non-zero or the candidate's TTL is zero (including the
disabling direction). -/
theorem update_gc_transition :
    (∀ (urlHost : String → Option String) (v : Validator)
        (oldC newC : RegistryCacheConfig),
      isEmptySpec newC.spec = false →
      configGCTTL oldC = 0 → configGCTTL newC ≠ 0 →
      fieldInvalid "spec.garbageCollection.ttl" (BadValue.gcStruct (configGCTTL newC))
          "garbage collection cannot be enabled"
        ∈ Validator.DoOnUpdate (specExternals urlHost) v newC oldC) ∧
    (∀ (urlHost : String → Option String) (v : Validator)
        (oldC newC : RegistryCacheConfig),
      configGCTTL oldC ≠ 0 ∨ configGCTTL newC = 0 →
      ∀ e ∈ Validator.DoOnUpdate (specExternals urlHost) v newC oldC,
        e.detail ≠ "garbage collection cannot be enabled") := by
  have hpath : adjustPath "spec.caches[0].garbageCollection.ttl"
      = "spec.garbageCollection.ttl" := by decide
  constructor
  · intro urlHost v oldC newC hne h0 hn
    rw [DoOnUpdate_eq_parts urlHost v newC oldC hne]
    refine List.mem_append_right _ (List.mem_append_right _ (List.mem_append_right _
      (List.mem_append_right _ ?_)))
    simp only [transformFieldErrors]
    refine List.mem_map.mpr ⟨fieldInvalid "spec.caches[0].garbageCollection.ttl"
      (BadValue.gcStruct (configGCTTL newC)) "garbage collection cannot be enabled",
      ?_, ?_⟩
    · refine mem_specValidateRegistryCacheUpdate_iff.mpr (Or.inr (Or.inr ⟨?_, ?_, ?_⟩))
      · rw [configGCTTL_toExtensionCache]; exact h0
      · rw [configGCTTL_toExtensionCache]; exact hn
      · rw [configGCTTL_toExtensionCache]
    · simp [fieldInvalid, hpath]
  · intro urlHost v oldC newC hside e he
    by_cases hne : isEmptySpec newC.spec = true
    · rw [DoOnUpdate_emptySpec (specExternals urlHost) v newC oldC hne] at he
      simp only [List.mem_singleton] at he
      simp [he, fieldRequired]
    · rw [Bool.not_eq_true] at hne
      rw [DoOnUpdate_eq_parts urlHost v newC oldC hne] at he
      simp only [List.mem_append] at he
      rcases he with he | he | he | he | he
      · rw [mem_validateUpstreamUniqueness he]; simp [fieldDuplicate]
      · rw [mem_validateUpstreamResolvability he]; simp [fieldInvalid]
      · rw [(mem_validateRemoteURLResolvability he).2.2]; decide
      · rcases mem_validateSecretReferenceName he with ⟨refName, _, rfl⟩ | ⟨s, refName, hin⟩
        · simp [fieldInvalid]
        · rcases (mem_specValidateUpstreamRegistrySecret hin).2.2 with hd | hd | hd | hd <;>
            rw [hd] <;> decide
      · rcases mem_transformFieldErrors he with ⟨e0, h0, rfl⟩
        have hde : FieldError.detail { e0 with field := adjustPath e0.field }
            = e0.detail := rfl
        rw [hde]
        rcases mem_specValidateRegistryCacheUpdate_iff.mp h0 with
          ⟨a, b, ha, hb, hab, rfl⟩ | ⟨a, b, ha, hb, hab, rfl⟩ | ⟨hz, hnz, rfl⟩
        · simp [fieldInvalid]
        · simp [fieldInvalid]
        · rw [configGCTTL_toExtensionCache] at hz
          rw [configGCTTL_toExtensionCache] at hnz
          rcases hside with hside | hside
          · exact absurd hz hside
          · exact absurd hside hnz

/-- C6 witness: enabling garbage collection (TTL zero to one hour) at a
concrete update. -/
theorem update_gc_transition_witness :
    fieldInvalid "spec.garbageCollection.ttl" (BadValue.gcStruct 3600000000000)
        "garbage collection cannot be enabled"
      ∈ Validator.DoOnUpdate (specExternals urlParseAlwaysFails)
          (NewValidator [] [] (some dnsAlwaysTrue))
          { name := "config1", namespaceName := "default",
            spec := { emptySpec with
                      upstream := "docker.io",
                      garbageCollection := some ({ ttl := 3600000000000 } :
                        GarbageCollection) } }
          { name := "config1", namespaceName := "default",
            spec := { emptySpec with
                      upstream := "docker.io",
                      garbageCollection := some ({ ttl := 0 } : GarbageCollection) } } :=
  update_gc_transition.1 urlParseAlwaysFails
    (NewValidator [] [] (some dnsAlwaysTrue))
    { name := "config1", namespaceName := "default",
      spec := { emptySpec with
                upstream := "docker.io",
                garbageCollection := some ({ ttl := 0 } : GarbageCollection) } }
    { name := "config1", namespaceName := "default",
      spec := { emptySpec with
                upstream := "docker.io",
                garbageCollection := some ({ ttl := 3600000000000 } :
                  GarbageCollection) } }
    (by decide) (by decide) (by decide)

/-! ## C7: missing referenced secret -/

/-- C7: when `secretReferenceName` is set, no secret with that name exists
in the candidate's namespace, and every other check passes (uniqueness, the
two DNS checks and the spec-modelled domain rules produce no error), the
result of `Do` is exactly one Invalid error on `spec.secretReferenceName`
whose value is the referenced name and whose detail ("secret does not
exist") contains "does not exist". -/
theorem missing_secret_single_error (urlHost : String → Option String)
    (v : Validator) (cfg : RegistryCacheConfig) (refName : String)
    (href : cfg.spec.secretReferenceName = some refName)
    (hfind : v.secrets.find? (fun s =>
        s.name == refName && s.namespaceName == cfg.namespaceName) = none)
    (huniq : validateUpstreamUniqueness cfg v.existingConfigs = [])
    (hdns : validateUpstreamResolvability cfg v.dns = [])
    (hremote : validateRemoteURLResolvability urlHost cfg v.dns = [])
    (hdomain : specValidateRegistryConfig (toExtensionConfig cfg) = []) :
    Validator.Do (specExternals urlHost) v cfg
      = [fieldInvalid "spec.secretReferenceName" (BadValue.str refName)
          "secret does not exist"] := by
  have hne : isEmptySpec cfg.spec = false := by
    simp [isEmptySpec, href]
  rw [Do_eq_parts urlHost v cfg hne, huniq, hdns, hremote, hdomain]
  simp [validateSecretReferenceName, href, hfind, transformFieldErrors]

/-- C7 witness: a dangling secret reference at a concrete configuration. -/
theorem missing_secret_single_error_witness :
    Validator.Do (specExternals urlParseAlwaysFails)
        (NewValidator [] [] (some dnsAlwaysTrue))
        { name := "config1", namespaceName := "default",
          spec := { emptySpec with
                    upstream := "docker.io",
                    secretReferenceName := some "non-existent-secret" } }
      = [fieldInvalid "spec.secretReferenceName" (BadValue.str "non-existent-secret")
          "secret does not exist"] :=
  missing_secret_single_error urlParseAlwaysFails
    (NewValidator [] [] (some dnsAlwaysTrue))
    { name := "config1", namespaceName := "default",
      spec := { emptySpec with
                upstream := "docker.io",
                secretReferenceName := some "non-existent-secret" } }
    "non-existent-secret" rfl rfl rfl (by decide) rfl (by decide)

/-! ## C8: create acceptance implies self-update acceptance -/

/-- C8: a configuration that `Do` accepts with zero errors is also accepted
by `DoOnUpdate` with itself as the previous configuration, with the same
validator inputs, for every hostname oracle, create delegate and secret
checker (the update delegate is the spec-modelled one): the immutability
and GC-transition checks cannot fire when nothing changed. -/
theorem create_pass_self_update_pass (urlHost : String → Option String)
    (createDel : ExtRegistryConfig → List FieldError)
    (secretChecker : Secret → String → List FieldError)
    (v : Validator) (c : RegistryCacheConfig)
    (h : Validator.Do
        { urlHostname := urlHost, validateRegistryConfig := createDel,
          validateRegistryConfigUpdate := specValidateRegistryConfigUpdate,
          validateUpstreamRegistrySecret := secretChecker } v c = []) :
    Validator.DoOnUpdate
        { urlHostname := urlHost, validateRegistryConfig := createDel,
          validateRegistryConfigUpdate := specValidateRegistryConfigUpdate,
          validateUpstreamRegistrySecret := secretChecker } v c c = [] := by
  by_cases hne : isEmptySpec c.spec = true
  · rw [Do_emptySpec _ v c hne] at h
    simp at h
  · rw [Bool.not_eq_true] at hne
    rw [Validator.Do, if_neg (by simp [hne])] at h
    have hcommon := (List.append_eq_nil.mp h).1
    rw [Validator.DoOnUpdate, if_neg (by simp [hne]), hcommon]
    simp [toExtensionConfig, specValidateRegistryConfigUpdate,
      specValidateRegistryCacheUpdate_self, transformFieldErrors]

/-- C8 witness: a concrete accepted configuration round-trips through
self-update with zero errors. -/
theorem create_pass_self_update_pass_witness :
    Validator.DoOnUpdate
        { urlHostname := urlParseAlwaysFails,
          validateRegistryConfig := specValidateRegistryConfig,
          validateRegistryConfigUpdate := specValidateRegistryConfigUpdate,
          validateUpstreamRegistrySecret := specValidateUpstreamRegistrySecret }
        (NewValidator [] [] (some dnsAlwaysTrue))
        { name := "config1", namespaceName := "default",
          spec := { emptySpec with upstream := "docker.io" } }
        { name := "config1", namespaceName := "default",
          spec := { emptySpec with upstream := "docker.io" } } = [] :=
  create_pass_self_update_pass urlParseAlwaysFails specValidateRegistryConfig
    specValidateUpstreamRegistrySecret (NewValidator [] [] (some dnsAlwaysTrue))
    { name := "config1", namespaceName := "default",
      spec := { emptySpec with upstream := "docker.io" } }
    (by decide)

/-! ## C9: delegate error paths are rewritten -/

theorem toList_asString (cs : List Char) : (List.asString cs).toList = cs := rfl

theorem asString_toList (s : String) : List.asString s.toList = s := rfl

theorem splitDot_joinDot (l : List String) (h : ∀ s ∈ l, ('.' : Char) ∉ s.toList)
    (hne : l ≠ []) : splitDot (joinDot l) = l := by
  have hx : ∀ cs ∈ l.map String.toList, ('.' : Char) ∉ cs := by
    intro cs hcs
    rcases List.mem_map.mp hcs with ⟨s, hs, rfl⟩
    exact h s hs
  have hls : l.map String.toList ≠ [] := by
    intro hcon
    exact hne (List.map_eq_nil_iff.mp hcon)
  unfold splitDot joinDot
  rw [toList_asString, List.splitOn_intercalate (l.map String.toList) '.' hx hls, List.map_map,
    show List.asString ∘ String.toList = id from funext asString_toList, List.map_id]

/-- C9: every delegate error comes back from `Do` and `DoOnUpdate` with its
field path rewritten by `adjustPath`; `adjustPath` removes exactly the
second dot-separated segment, so a path of the form `spec.caches[0].X`
(for any dot-separated suffix `X`) becomes `spec.X`, and a path with fewer
than two dot-separated segments is returned unchanged. -/
theorem delegate_paths_adjusted :
    (∀ (E : Externals) (v : Validator) (cfg oldCfg : RegistryCacheConfig),
      isEmptySpec cfg.spec = false →
      Validator.Do E v cfg
        = Validator.validateCommon E v cfg
          ++ (E.validateRegistryConfig (toExtensionConfig cfg)).map
              (fun e => { e with field := adjustPath e.field }) ∧
      Validator.DoOnUpdate E v cfg oldCfg
        = Validator.validateCommon E v cfg
          ++ (E.validateRegistryConfigUpdate (toExtensionConfig oldCfg)
              (toExtensionConfig cfg)).map
              (fun e => { e with field := adjustPath e.field })) ∧
    (∀ xs : List String, (∀ s ∈ xs, ('.' : Char) ∉ s.toList) →
      adjustPath (joinDot ("spec" :: "caches[0]" :: xs)) = joinDot ("spec" :: xs)) ∧
    (∀ p : String, (splitDot p).length < 2 → adjustPath p = p) := by
  refine ⟨fun E v cfg oldCfg hne => ⟨?_, ?_⟩, fun xs hxs => ?_, fun p hp => ?_⟩
  · simp [Validator.Do, hne, transformFieldErrors]
  · simp [Validator.DoOnUpdate, hne, transformFieldErrors]
  · have hsplit : splitDot (joinDot ("spec" :: "caches[0]" :: xs))
        = "spec" :: "caches[0]" :: xs := by
      apply splitDot_joinDot
      · intro s hs
        rcases List.mem_cons.mp hs with rfl | hs
        · decide
        · rcases List.mem_cons.mp hs with rfl | hs
          · decide
          · exact hxs s hs
      · exact List.cons_ne_nil _ _
    simp only [adjustPath, hsplit]
    rw [if_neg (by simp)]
    rfl
  · simp only [adjustPath]
    rw [if_pos hp]

/-- C9 witness: the canonical upstream path. -/
theorem delegate_paths_adjusted_witness :
    adjustPath (joinDot ["spec", "caches[0]", "upstream"]) = joinDot ["spec", "upstream"] :=
  delegate_paths_adjusted.2.1 ["upstream"] (by decide)

end RegistryCacheValidation
